import Mathlib

namespace NoClash

/-!
Verification of the NoClash booking core (`src/Backend/server.js`, endpoint
`POST /api/book-extra-class`).

The endpoint is embedded as a pure function over an explicit store of
`Schedule` rows:

* Calendar arithmetic mirrors the ECMAScript `Date` built-ins used by the
  endpoint (`new Date(class_date + 'T00:00:00Z')` followed by
  `toLocaleDateString('en-US', { weekday: 'long', timeZone: 'UTC' })`):
  `dayFromYear` and `daysBeforeMonth` are ECMA-262's `DayFromYear` /
  `DayWithinYear` tables, `jsWeekday` is ECMA-262's `WeekDay`
  (`0 = Sunday`, 1970-01-01 maps to `4 = Thursday`).
* Request fields arrive as raw character lists; the validation steps
  (missing/falsy fields, the two regexes, the JavaScript string comparison
  `start_time >= end_time`, and the past-date check against local midnight)
  are modelled character by character.
* MySQL DATETIME values are modelled as a calendar date plus seconds of day;
  MySQL compares DATETIMEs chronologically, which for in-range values is the
  numeric order of `dtSecs`.
* The transaction becomes explicit state passing: every non-committed path
  returns the store unchanged (the code rolls back on conflict and on any
  error, and releases the connection).
-/

/-- Gregorian leap-year test, as both ECMA-262 (`DaysInYear`) and MySQL use it. -/
def isLeap (y : Nat) : Bool := (y % 4 == 0 && y % 100 != 0) || y % 400 == 0

/-- Number of days in month `m` (1..12) of year `y`. -/
def monthLength (y : Nat) (m : Nat) : Nat :=
  match m with
  | 1 => 31 | 2 => if isLeap y then 29 else 28 | 3 => 31 | 4 => 30 | 5 => 31 | 6 => 30
  | 7 => 31 | 8 => 31 | 9 => 30 | 10 => 31 | 11 => 30 | 12 => 31
  | _ => 0

/-- ECMA-262 `DayFromYear`: day number of 1 January of year `y`, counted from
1970-01-01. Restricted to `y ≥ 1970`, where the ECMA floor divisions agree
with truncating `Nat` division. -/
def dayFromYear (y : Nat) : Nat :=
  365 * (y - 1970) + (y - 1969) / 4 - (y - 1901) / 100 + (y - 1601) / 400

/-- Days in year `y` strictly before month `m` (ECMA-262 `DayWithinYear` table). -/
def daysBeforeMonth (y : Nat) (m : Nat) : Nat :=
  let l : Nat := if isLeap y then 1 else 0
  match m with
  | 1 => 0 | 2 => 31 | 3 => 59 + l | 4 => 90 + l | 5 => 120 + l | 6 => 151 + l
  | 7 => 181 + l | 8 => 212 + l | 9 => 243 + l | 10 => 273 + l | 11 => 304 + l | 12 => 334 + l
  | _ => 0

/-- A calendar date as carried by a `YYYY-MM-DD` string. -/
structure Date where
  year : Nat
  month : Nat
  day : Nat
deriving DecidableEq, Repr

/-- A date that denotes a real proleptic-Gregorian calendar day, within the
four-digit years the endpoint's date regex admits and at or after the Unix
epoch (the endpoint rejects past dates, so dates reaching the calendar
computation are all well after 1970). -/
def Date.valid (dt : Date) : Prop :=
  1970 ≤ dt.year ∧ dt.year ≤ 9999 ∧ 1 ≤ dt.month ∧ dt.month ≤ 12 ∧
    1 ≤ dt.day ∧ dt.day ≤ monthLength dt.year dt.month

instance (dt : Date) : Decidable dt.valid := by unfold Date.valid; infer_instance

/-- Day number of a date counted from 1970-01-01, exactly as ECMA-262
`MakeDay` computes it for `Date.UTC`-anchored parsing (a day count past the
month length rolls into the following month, as `MakeDay` does). -/
def epochDay (dt : Date) : Nat :=
  dayFromYear dt.year + daysBeforeMonth dt.year dt.month + (dt.day - 1)

/-- The next calendar day. -/
def calendarSucc (dt : Date) : Date :=
  if dt.day < monthLength dt.year dt.month then ⟨dt.year, dt.month, dt.day + 1⟩
  else if dt.month < 12 then ⟨dt.year, dt.month + 1, 1⟩
  else ⟨dt.year + 1, 1, 1⟩

/-- ECMA-262 `WeekDay`: `0 = Sunday`, …, `6 = Saturday`; day 0 (1970-01-01)
maps to 4, Thursday. -/
def jsWeekday (dt : Date) : Nat := (epochDay dt + 4) % 7

/-- The English weekday names produced by
`toLocaleDateString('en-US', { weekday: 'long' })`, indexed by ECMA `WeekDay`. -/
def weekdayName : Nat → String
  | 0 => "Sunday" | 1 => "Monday" | 2 => "Tuesday" | 3 => "Wednesday"
  | 4 => "Thursday" | 5 => "Friday" | 6 => "Saturday" | _ => "Invalid"

/-- The weekday name following a given weekday name. -/
def nextDayName : String → String
  | "Sunday" => "Monday" | "Monday" => "Tuesday" | "Tuesday" => "Wednesday"
  | "Wednesday" => "Thursday" | "Thursday" => "Friday" | "Friday" => "Saturday"
  | "Saturday" => "Sunday" | _ => "Invalid"

/-- The `dayOfWeek` string computed by the endpoint. The source parses
`class_date + 'T00:00:00Z'` (the trailing `Z` anchors the instant to UTC,
so the server's offset `tz` is never consulted) and formats the weekday with
`timeZone: 'UTC'`; the `tz` parameter records that the server offset is
available but unused on this path. -/
def dayOfWeekCode (dt : Date) (tz : Int) : String :=
  weekdayName (jsWeekday dt)

/-- Recurrence class of a `Schedule` row: `Base` recurs weekly, `Extra` is a
one-off class on a specific date. -/
inductive ClassType | base | extra
deriving DecidableEq, Repr

/-- A `Schedule` table row. MySQL stores `start_time` / `end_time` as
DATETIME values, modelled as a calendar date plus seconds of day; the
`day_of_week` column is a VARCHAR of an English day name; `class_date` is
only meaningful for `Extra` rows. -/
structure Row where
  schedule_id : Nat
  course_id : Nat
  professor_id : Nat
  batch_id : Nat
  classroom_id : Nat
  day_of_week : String
  start_date : Date
  start_sec : Nat
  end_date : Date
  end_sec : Nat
  class_type : ClassType
  class_date : Date
deriving DecidableEq, Repr

/-- Absolute seconds of a DATETIME value. MySQL orders DATETIMEs
chronologically, which is the numeric order of this quantity. -/
def dtSecs (d : Date) (s : Nat) : Nat := epochDay d * 86400 + s

/-- A time string matching the endpoint's regex `^\d{2}:\d{2}(:\d{2})?$`,
by its numeric fields. `sec = none` for the five-character `HH:MM` form.
The regex bounds each field only to two digits, not to clock range. -/
structure TimeStr where
  hh : Nat
  mm : Nat
  sec : Option Nat
deriving DecidableEq, Repr

/-- Seconds of day denoted by a validated time string once the endpoint has
normalized it (a missing `:SS` is appended as `:00` before the insert). -/
def TimeStr.seconds (t : TimeStr) : Nat := t.hh * 3600 + t.mm * 60 + t.sec.getD 0

/-- Numeric value of an ASCII digit character. -/
def digitVal (c : Char) : Nat := c.toNat - 48

/-- The endpoint's time regex `^\d{2}:\d{2}(:\d{2})?$` on a raw string. -/
def timeRegexTest : List Char → Bool
  | [h1, h2, c1, m1, m2] =>
      h1.isDigit && h2.isDigit && (c1 == ':') && m1.isDigit && m2.isDigit
  | [h1, h2, c1, m1, m2, c2, s1, s2] =>
      h1.isDigit && h2.isDigit && (c1 == ':') && m1.isDigit && m2.isDigit &&
        (c2 == ':') && s1.isDigit && s2.isDigit
  | _ => false

/-- The endpoint's date regex `^\d{4}-\d{2}-\d{2}$` on a raw string. -/
def dateRegexTest : List Char → Bool
  | [y1, y2, y3, y4, c1, m1, m2, c2, d1, d2] =>
      y1.isDigit && y2.isDigit && y3.isDigit && y4.isDigit && (c1 == '-') &&
        m1.isDigit && m2.isDigit && (c2 == '-') && d1.isDigit && d2.isDigit
  | _ => false

/-- JavaScript string `<` (code-unit lexicographic order; a proper prefix is
smaller). The endpoint's `start_time >= end_time` test is its negation. -/
def jsStrLt : List Char → List Char → Bool
  | _, [] => false
  | [], _ :: _ => true
  | a :: as, b :: bs =>
      if a.toNat < b.toNat then true
      else if b.toNat < a.toNat then false
      else jsStrLt as bs

/-- Numeric fields of a regex-validated time string. Only evaluated on
strings the regex accepted; other shapes yield a dummy value. -/
def parseTimeChars : List Char → TimeStr
  | [h1, h2, _, m1, m2] => ⟨digitVal h1 * 10 + digitVal h2, digitVal m1 * 10 + digitVal m2, none⟩
  | [h1, h2, _, m1, m2, _, s1, s2] =>
      ⟨digitVal h1 * 10 + digitVal h2, digitVal m1 * 10 + digitVal m2,
        some (digitVal s1 * 10 + digitVal s2)⟩
  | _ => ⟨0, 0, none⟩

/-- Numeric fields of a regex-validated `YYYY-MM-DD` string. -/
def parseDateChars : List Char → Date
  | [y1, y2, y3, y4, _, m1, m2, _, d1, d2] =>
      ⟨digitVal y1 * 1000 + digitVal y2 * 100 + digitVal y3 * 10 + digitVal y4,
        digitVal m1 * 10 + digitVal m2, digitVal d1 * 10 + digitVal d2⟩
  | _ => ⟨0, 0, 0⟩

/-- The request body of `POST /api/book-extra-class`: identifier fields are
absent when `== null`, string fields carry raw characters. -/
structure BookRequest where
  course_id : Option Nat
  batch_id : Option Nat
  classroom_id : Option Nat
  class_date : Option (List Char)
  start_time : Option (List Char)
  end_time : Option (List Char)
deriving DecidableEq, Repr

/-- The validation failures of the endpoint, in source order. -/
inductive ValidationError
  | missingFields
  | badFormat
  | startNotBeforeEnd
  | pastDate
deriving DecidableEq, Repr

/-- A candidate booking that passed validation. -/
structure Parsed where
  course_id : Nat
  batch_id : Nat
  classroom_id : Nat
  class_date : Date
  start_time : TimeStr
  end_time : TimeStr
deriving DecidableEq, Repr

/-- Epoch minutes of the server's local midnight: `new Date()` followed by
`setHours(0,0,0,0)`. `now` is the current instant in epoch minutes (UTC) and
`tz` the server's offset in minutes (local wall time = UTC + `tz`). -/
def localMidnight (now : Nat) (tz : Int) : Int :=
  (Int.fdiv (Int.ofNat now + tz) 1440) * 1440 - tz

/-- The ECMA date-time-string format bounds on the parsed fields: months
outside 01..12 or days outside 01..31 make `new Date(...)` an Invalid Date
(`isNaN`); a day count past the month length rolls over inside `MakeDay`. -/
def jsParseOk (dt : Date) : Prop :=
  1 ≤ dt.month ∧ dt.month ≤ 12 ∧ 1 ≤ dt.day ∧ dt.day ≤ 31

instance (dt : Date) : Decidable (jsParseOk dt) := by unfold jsParseOk; infer_instance

/-- The endpoint's input validation, in source order: missing/falsy fields,
the two regexes, the JavaScript string comparison `start_time >= end_time`,
then the past-date check of the UTC-anchored parsed date against the
server's local midnight. -/
def validate (req : BookRequest) (now : Nat) (tz : Int) : Except ValidationError Parsed :=
  match req.course_id, req.batch_id, req.classroom_id,
        req.class_date, req.start_time, req.end_time with
  | some courseId, some batchId, some classroomId,
    some dateStr, some startStr, some endStr =>
    if dateStr = [] ∨ startStr = [] ∨ endStr = [] then
      Except.error ValidationError.missingFields
    else if ¬ (dateRegexTest dateStr ∧ timeRegexTest startStr ∧ timeRegexTest endStr) then
      Except.error ValidationError.badFormat
    else if ¬ jsStrLt startStr endStr then
      Except.error ValidationError.startNotBeforeEnd
    else
      let dt := parseDateChars dateStr
      if ¬ jsParseOk dt then Except.error ValidationError.pastDate
      else if Int.ofNat (epochDay dt) * 1440 < localMidnight now tz then
        Except.error ValidationError.pastDate
      else
        Except.ok ⟨courseId, batchId, classroomId, dt,
          parseTimeChars startStr, parseTimeChars endStr⟩
  | _, _, _, _, _, _ => Except.error ValidationError.missingFields

/-- The resource-dimension disjunction of the conflict query:
`classroom_id = ? OR professor_id = ? OR batch_id = ?`. -/
def sharesDim (r : Row) (classroomId professorId batchId : Nat) : Bool :=
  decide (r.classroom_id = classroomId) || decide (r.professor_id = professorId) ||
    decide (r.batch_id = batchId)

/-- The WHERE clause of the conflict query for one existing row:
`(s.start_time < fullEnd AND s.end_time > fullStart)` — a DATETIME
comparison — conjoined with the Extra-same-date or Base-same-day-of-week
resource disjunctions. -/
def rowConflict (r : Row) (classroomId professorId batchId : Nat) (cdate : Date)
    (dow : String) (fullStart fullEnd : Nat) : Bool :=
  decide (dtSecs r.start_date r.start_sec < fullEnd) &&
  decide (fullStart < dtSecs r.end_date r.end_sec) &&
  ((decide (r.class_type = ClassType.extra) && decide (r.class_date = cdate) &&
      sharesDim r classroomId professorId batchId) ||
   (decide (r.class_type = ClassType.base) && decide (r.day_of_week = dow) &&
      sharesDim r classroomId professorId batchId))

/-- The `CASE WHEN` of the conflict query naming the conflicting entity, in
the source's fixed order: classroom, then professor, then batch. -/
def conflictEntity (r : Row) (classroomId professorId batchId : Nat) : String :=
  if r.classroom_id = classroomId then "Classroom"
  else if r.professor_id = professorId then "Professor"
  else if r.batch_id = batchId then "Batch"
  else "Unknown Conflict"

/-- The row the INSERT statement creates for a validated candidate:
`class_type = 'Extra'`, both DATETIMEs on the candidate's date with
normalized seconds, and the computed `dayOfWeek` string. -/
def newRow (sid : Nat) (p : Parsed) (professorId : Nat) (dow : String) : Row :=
  { schedule_id := sid
    course_id := p.course_id
    professor_id := professorId
    batch_id := p.batch_id
    classroom_id := p.classroom_id
    day_of_week := dow
    start_date := p.class_date
    start_sec := p.start_time.seconds
    end_date := p.class_date
    end_sec := p.end_time.seconds
    class_type := ClassType.extra
    class_date := p.class_date }

/-- Result of one booking attempt, keyed to the endpoint's HTTP statuses:
400 validation, 409 conflict, 400 referential (MySQL error 1452),
500 unexpected, 201 created. -/
inductive Outcome
  | validationError (e : ValidationError)
  | conflict (entity : String) (r : Row)
  | referentialError
  | serverError
  | created (sid : Nat)
deriving DecidableEq, Repr

/-- Whether an outcome is the 201 success. -/
def Outcome.isCreated : Outcome → Bool
  | .created _ => true
  | _ => false

/-- Ambient state of one request: the clock, the server's timezone offset,
the foreign-key tables the INSERT is checked against, an injected
unexpected-failure flag for the 500 path, and the next AUTO_INCREMENT id. -/
structure Env where
  now : Nat
  tz : Int
  courses : List Nat
  professors : List Nat
  batches : List Nat
  classrooms : List Nat
  insertFault : Bool
  nextId : Nat
deriving DecidableEq, Repr

/-- The whole `POST /api/book-extra-class` handler as a state transformer:
validate, run the conflict query (`LIMIT 1` is the first match in store
order), and on a clear check insert inside the same transaction. Every
non-201 path rolls the transaction back, leaving the store unchanged. -/
def bookExtraClass (env : Env) (store : List Row) (professorId : Nat) (req : BookRequest) :
    Outcome × List Row :=
  match validate req env.now env.tz with
  | Except.error e => (Outcome.validationError e, store)
  | Except.ok p =>
    let dow := dayOfWeekCode p.class_date env.tz
    let fullStart := dtSecs p.class_date p.start_time.seconds
    let fullEnd := dtSecs p.class_date p.end_time.seconds
    match store.find? (fun r =>
        rowConflict r p.classroom_id professorId p.batch_id p.class_date dow fullStart fullEnd) with
    | some r =>
        (Outcome.conflict (conflictEntity r p.classroom_id professorId p.batch_id) r, store)
    | none =>
        if env.insertFault then (Outcome.serverError, store)
        else if p.course_id ∈ env.courses ∧ professorId ∈ env.professors ∧
                p.batch_id ∈ env.batches ∧ p.classroom_id ∈ env.classrooms then
          (Outcome.created env.nextId,
            store ++ [newRow env.nextId p professorId dow])
        else (Outcome.referentialError, store)

/-- Two rows share a resource dimension (spec §3: classroom, professor or
batch). -/
def sharesResource (r1 r2 : Row) : Prop :=
  r1.classroom_id = r2.classroom_id ∨ r1.professor_id = r2.professor_id ∨
    r1.batch_id = r2.batch_id

instance (r1 r2 : Row) : Decidable (sharesResource r1 r2) := by
  unfold sharesResource; infer_instance

/-- Two rows are on a comparable time axis (spec §3): two Extras on the same
date, an Extra and a Base where the Extra's date falls on the Base's day of
week, or two Bases on the same day of week. -/
def comparableAxis (r1 r2 : Row) : Prop :=
  (r1.class_type = ClassType.extra ∧ r2.class_type = ClassType.extra ∧
    r1.class_date = r2.class_date) ∨
  (r1.class_type = ClassType.extra ∧ r2.class_type = ClassType.base ∧
    weekdayName (jsWeekday r1.class_date) = r2.day_of_week) ∨
  (r1.class_type = ClassType.base ∧ r2.class_type = ClassType.extra ∧
    weekdayName (jsWeekday r2.class_date) = r1.day_of_week) ∨
  (r1.class_type = ClassType.base ∧ r2.class_type = ClassType.base ∧
    r1.day_of_week = r2.day_of_week)

instance (r1 r2 : Row) : Decidable (comparableAxis r1 r2) := by
  unfold comparableAxis; infer_instance

/-- Half-open overlap of the wall-clock `[startTime, endTime)` intervals of
two rows (spec §4.1). -/
def timeOfDayOverlap (r1 r2 : Row) : Prop :=
  r1.start_sec < r2.end_sec ∧ r2.start_sec < r1.end_sec

instance (r1 r2 : Row) : Decidable (timeOfDayOverlap r1 r2) := by
  unfold timeOfDayOverlap; infer_instance

/-- The no-overlap invariant of spec §3: no two distinct bookings sharing a
resource dimension and a comparable time axis overlap. -/
def NoOverlap (store : List Row) : Prop :=
  ∀ r1 ∈ store, ∀ r2 ∈ store, r1.schedule_id ≠ r2.schedule_id →
    sharesResource r1 r2 → comparableAxis r1 r2 → ¬ timeOfDayOverlap r1 r2

instance (store : List Row) : Decidable (NoOverlap store) := by
  unfold NoOverlap; infer_instance

/-- Witness for C4: an existing 09:00–10:00 class and a back-to-back
10:00–11:00 candidate in the same classroom on the same date. -/
def rowW4 : Row :=
  { schedule_id := 1, course_id := 12, professor_id := 6, batch_id := 25, classroom_id := 50
    day_of_week := "Wednesday"
    start_date := ⟨2024, 3, 6⟩, start_sec := 9 * 3600
    end_date := ⟨2024, 3, 6⟩, end_sec := 10 * 3600
    class_type := ClassType.extra, class_date := ⟨2024, 3, 6⟩ }

def envW4 : Env :=
  { now := 0, tz := 0, courses := [12], professors := [6], batches := [25]
    classrooms := [50], insertFault := false, nextId := 3 }

def reqW4 : BookRequest :=
  { course_id := some 12, batch_id := some 25, classroom_id := some 50
    class_date := some ['2', '0', '2', '4', '-', '0', '3', '-', '0', '6']
    start_time := some ['1', '0', ':', '0', '0']
    end_time := some ['1', '1', ':', '0', '0'] }

def pW4 : Parsed := ⟨12, 25, 50, ⟨2024, 3, 6⟩, ⟨10, 0, none⟩, ⟨11, 0, none⟩⟩

/-- Witness for C8: a conflicting 09:30–10:30 resubmission against an
existing 09:00–10:00 class leaves the store untouched. -/
def rowW8 : Row :=
  { schedule_id := 1, course_id := 13, professor_id := 4, batch_id := 26, classroom_id := 60
    day_of_week := "Wednesday"
    start_date := ⟨2024, 3, 6⟩, start_sec := 9 * 3600
    end_date := ⟨2024, 3, 6⟩, end_sec := 10 * 3600
    class_type := ClassType.extra, class_date := ⟨2024, 3, 6⟩ }

def envW8 : Env :=
  { now := 0, tz := 0, courses := [13], professors := [4], batches := [26]
    classrooms := [60], insertFault := false, nextId := 2 }

def reqW8 : BookRequest :=
  { course_id := some 13, batch_id := some 26, classroom_id := some 60
    class_date := some ['2', '0', '2', '4', '-', '0', '3', '-', '0', '6']
    start_time := some ['0', '9', ':', '3', '0']
    end_time := some ['1', '0', ':', '3', '0'] }

def envC9 : Env :=
  { now := 0, tz := 0, courses := [15], professors := [2], batches := [28]
    classrooms := [80], insertFault := false, nextId := 1 }

def reqC9 : BookRequest :=
  { course_id := some 15, batch_id := some 28, classroom_id := some 80
    class_date := some ['2', '0', '2', '4', '-', '0', '3', '-', '0', '6']
    start_time := some ['0', '9', ':', '3', '0']
    end_time := some ['0', '9', ':', '3', '0', ':', '0', '0'] }

/-- Witness scenario for the amended C9. -/
def envW9 : Env :=
  { now := 0, tz := 0, courses := [14], professors := [3], batches := [27]
    classrooms := [70], insertFault := false, nextId := 1 }

def reqW9 : BookRequest :=
  { course_id := some 14, batch_id := some 27, classroom_id := some 70
    class_date := some ['2', '0', '2', '4', '-', '0', '3', '-', '0', '6']
    start_time := some ['0', '9', ':', '0', '0']
    end_time := some ['1', '0', ':', '0', '0'] }

def pW9 : Parsed := ⟨14, 27, 70, ⟨2024, 3, 6⟩, ⟨9, 0, none⟩, ⟨10, 0, none⟩⟩

/-- Witness scenario for C10. -/
def envW10 : Env :=
  { now := 0, tz := 0, courses := [16], professors := [5], batches := [29]
    classrooms := [90], insertFault := false, nextId := 1 }

def reqW10 : BookRequest :=
  { course_id := some 16, batch_id := some 29, classroom_id := some 90
    class_date := some ['2', '0', '2', '4', '-', '0', '3', '-', '0', '4']
    start_time := some ['1', '4', ':', '0', '0']
    end_time := some ['1', '5', ':', '3', '0', ':', '1', '5'] }

def pW10 : Parsed := ⟨16, 29, 90, ⟨2024, 3, 4⟩, ⟨14, 0, none⟩, ⟨15, 30, some 15⟩⟩

/-- Witness row for C6, matching the candidate on all three dimensions. -/
def rowW6 : Row :=
  { schedule_id := 9, course_id := 1, professor_id := 2, batch_id := 3, classroom_id := 1
    day_of_week := "Monday"
    start_date := ⟨2024, 3, 4⟩, start_sec := 9 * 3600
    end_date := ⟨2024, 3, 4⟩, end_sec := 10 * 3600
    class_type := ClassType.extra, class_date := ⟨2024, 3, 4⟩ }

/-- C1 scenario. A pre-seeded Base row for Wednesdays, stored (as the
DATETIME columns force) under its seed date 2024-01-03, 11:00–12:00, for
professor 7; the candidate books Wednesday 2024-03-06, 11:30–12:30, with
the same professor but different classroom and batch. -/
def baseRowC1 : Row :=
  { schedule_id := 1, course_id := 10, professor_id := 7, batch_id := 20, classroom_id := 30
    day_of_week := "Wednesday"
    start_date := ⟨2024, 1, 3⟩, start_sec := 11 * 3600
    end_date := ⟨2024, 1, 3⟩, end_sec := 12 * 3600
    class_type := ClassType.base, class_date := ⟨2024, 1, 3⟩ }

def envC1 : Env :=
  { now := 0, tz := 0, courses := [10], professors := [7], batches := [20, 21]
    classrooms := [30, 31], insertFault := false, nextId := 2 }

def reqC1 : BookRequest :=
  { course_id := some 10, batch_id := some 21, classroom_id := some 31
    class_date := some ['2', '0', '2', '4', '-', '0', '3', '-', '0', '6']
    start_time := some ['1', '1', ':', '3', '0']
    end_time := some ['1', '2', ':', '3', '0'] }

/-- C3 scenario. A Base row for Wednesdays 09:00–10:00 in classroom 40,
stored under its seed date 2024-01-10; the candidate wants the same
classroom on Wednesday 2024-04-03, 09:30–10:30. -/
def baseRowC3 : Row :=
  { schedule_id := 1, course_id := 11, professor_id := 8, batch_id := 22, classroom_id := 40
    day_of_week := "Wednesday"
    start_date := ⟨2024, 1, 10⟩, start_sec := 9 * 3600
    end_date := ⟨2024, 1, 10⟩, end_sec := 10 * 3600
    class_type := ClassType.base, class_date := ⟨2024, 1, 10⟩ }

def envC3 : Env :=
  { now := 0, tz := 0, courses := [11], professors := [8, 9], batches := [22, 23]
    classrooms := [40], insertFault := false, nextId := 2 }

def reqC3 : BookRequest :=
  { course_id := some 11, batch_id := some 23, classroom_id := some 40
    class_date := some ['2', '0', '2', '4', '-', '0', '4', '-', '0', '3']
    start_time := some ['0', '9', ':', '3', '0']
    end_time := some ['1', '0', ':', '3', '0'] }

/-- C5 scenario: start `"09:30"`, end `"09:30:00"` — two spellings of the
same instant. -/
def envC5 : Env :=
  { now := 0, tz := 0, courses := [10], professors := [9], batches := [21]
    classrooms := [31], insertFault := false, nextId := 1 }

def reqC5 : BookRequest :=
  { course_id := some 10, batch_id := some 21, classroom_id := some 31
    class_date := some ['2', '0', '2', '4', '-', '0', '3', '-', '0', '6']
    start_time := some ['0', '9', ':', '3', '0']
    end_time := some ['0', '9', ':', '3', '0', ':', '0', '0'] }

def pC5 : Parsed := ⟨10, 21, 31, ⟨2024, 3, 6⟩, ⟨9, 30, none⟩, ⟨9, 30, some 0⟩⟩

/-! Calendar facts about the embedded ECMA date arithmetic. -/

theorem dayFromYear_succ (y : Nat) (hy : 1970 ≤ y) :
    dayFromYear (y + 1) =
      dayFromYear y + (if (y % 4 = 0 ∧ ¬ y % 100 = 0) ∨ y % 400 = 0 then 366 else 365) := by
  unfold dayFromYear
  obtain ⟨n, hn⟩ : ∃ n, y = 1970 + n := ⟨y - 1970, by omega⟩
  subst hn
  have e1 : 1970 + n + 1 - 1969 = (1970 + n - 1969) + 1 := by omega
  have e2 : 1970 + n + 1 - 1901 = (1970 + n - 1901) + 1 := by omega
  have e3 : 1970 + n + 1 - 1601 = (1970 + n - 1601) + 1 := by omega
  rw [e1, e2, e3, Nat.succ_div, Nat.succ_div, Nat.succ_div]
  have d1 : (4 ∣ 1970 + n - 1969 + 1) ↔ (1970 + n) % 4 = 0 := by omega
  have d2 : (100 ∣ 1970 + n - 1901 + 1) ↔ (1970 + n) % 100 = 0 := by omega
  have d3 : (400 ∣ 1970 + n - 1601 + 1) ↔ (1970 + n) % 400 = 0 := by omega
  simp only [d1, d2, d3]
  by_cases h4 : (1970 + n) % 4 = 0 <;> by_cases h100 : (1970 + n) % 100 = 0 <;>
    by_cases h400 : (1970 + n) % 400 = 0 <;>
    simp only [h4, h100, h400, not_true, not_false_iff, and_true, and_false, true_and,
      false_and, or_true, or_false, true_or, false_or, ite_true, ite_false, reduceIte] <;>
    omega

theorem daysBeforeMonth_succ (y m : Nat) (hm1 : 1 ≤ m) (hm2 : m ≤ 11) :
    daysBeforeMonth y (m + 1) = daysBeforeMonth y m + monthLength y m := by
  interval_cases m <;> cases hL : isLeap y <;> simp [daysBeforeMonth, monthLength, hL]

/-- Stepping to the next calendar day advances the ECMA day number by one. -/
theorem epochDay_calendarSucc (dt : Date) (h : dt.valid) :
    epochDay (calendarSucc dt) = epochDay dt + 1 := by
  obtain ⟨y, m, d⟩ := dt
  obtain ⟨hy1, hy2, hm1, hm2, hd1, hd2⟩ := h
  simp only at hy1 hy2 hm1 hm2 hd1 hd2
  unfold calendarSucc
  split
  · simp only [epochDay]; omega
  · split
    · rename_i hdm hm12
      simp only at hdm hm12
      simp only [epochDay]
      have hstep := daysBeforeMonth_succ y m hm1 (by omega)
      omega
    · rename_i hdm hm12
      simp only at hdm hm12
      have hm' : m = 12 := by omega
      subst hm'
      have hd' : d = 31 := by simp only [monthLength] at hd2 hdm; omega
      subst hd'
      have hstep := dayFromYear_succ y hy1
      have hL : (if (y % 4 = 0 ∧ ¬ y % 100 = 0) ∨ y % 400 = 0 then (366 : Nat) else 365)
          = 365 + (if isLeap y then 1 else 0) := by
        simp only [isLeap]
        by_cases h4 : y % 4 = 0 <;> by_cases h100 : y % 100 = 0 <;>
          by_cases h400 : y % 400 = 0 <;> simp [h4, h100, h400]
      rw [hL] at hstep
      simp only [epochDay, daysBeforeMonth, monthLength]
      cases hleap : isLeap y <;> simp [hleap] at hstep ⊢ <;> omega

/-- C7. Timezone-insensitive weekday derivation: for every valid calendar
date, the `dayOfWeek` string the endpoint computes is the same whatever the
server's local offset is, and it is the true calendar weekday: it names
1970-01-01 "Thursday" and advances by exactly one weekday name from each
calendar day to the next. -/
theorem dayOfWeek_calendar_correct (dt : Date) (h : dt.valid) :
    (∀ tz1 tz2 : Int, dayOfWeekCode dt tz1 = dayOfWeekCode dt tz2) ∧
    (∀ tz : Int, dayOfWeekCode ⟨1970, 1, 1⟩ tz = "Thursday") ∧
    (∀ tz : Int, dayOfWeekCode (calendarSucc dt) tz = nextDayName (dayOfWeekCode dt tz)) := by
  refine ⟨fun _ _ => rfl, fun _ => rfl, fun tz => ?_⟩
  unfold dayOfWeekCode jsWeekday
  rw [epochDay_calendarSucc dt h]
  have h7 : (epochDay dt + 4) % 7 < 7 := Nat.mod_lt _ (by norm_num)
  have hstep : (epochDay dt + 1 + 4) % 7 = ((epochDay dt + 4) % 7 + 1) % 7 := by omega
  rw [hstep]
  generalize (epochDay dt + 4) % 7 = k at h7 ⊢
  interval_cases k <;> decide

/-- Witness for C7 at the spec's example date 2024-03-04, a Monday. -/
theorem dayOfWeek_calendar_correct_witness :
    (Date.valid ⟨2024, 3, 4⟩) ∧
      dayOfWeekCode (calendarSucc ⟨2024, 3, 4⟩) 330 =
        nextDayName (dayOfWeekCode ⟨2024, 3, 4⟩ 330) :=
  ⟨by decide, (dayOfWeek_calendar_correct ⟨2024, 3, 4⟩ (by decide)).2.2 330⟩

/-- Sanity anchors: the embedded weekday computation reproduces the spec's
example dates (2024-03-04 is a Monday, 2024-03-06 a Wednesday). -/
theorem weekday_sanity :
    weekdayName (jsWeekday ⟨2024, 3, 4⟩) = "Monday" ∧
    weekdayName (jsWeekday ⟨2024, 3, 6⟩) = "Wednesday" ∧
    weekdayName (jsWeekday ⟨1970, 1, 1⟩) = "Thursday" := by decide

/-! Branch structure of the booking handler. -/

/-- Once validation succeeds, the handler is the conflict query followed by
the guarded insert. -/
theorem bookExtraClass_ok_unfold (env : Env) (store : List Row) (profId : Nat)
    (req : BookRequest) (p : Parsed) (hv : validate req env.now env.tz = Except.ok p) :
    bookExtraClass env store profId req =
      match store.find? (fun r =>
          rowConflict r p.classroom_id profId p.batch_id p.class_date
            (dayOfWeekCode p.class_date env.tz)
            (dtSecs p.class_date p.start_time.seconds)
            (dtSecs p.class_date p.end_time.seconds)) with
      | some r =>
          (Outcome.conflict (conflictEntity r p.classroom_id profId p.batch_id) r, store)
      | none =>
          if env.insertFault then (Outcome.serverError, store)
          else if p.course_id ∈ env.courses ∧ profId ∈ env.professors ∧
                  p.batch_id ∈ env.batches ∧ p.classroom_id ∈ env.classrooms then
            (Outcome.created env.nextId,
              store ++ [newRow env.nextId p profId (dayOfWeekCode p.class_date env.tz)])
          else (Outcome.referentialError, store) := by
  unfold bookExtraClass
  rw [hv]

/-- A row wholly at or before the candidate's start, or wholly at or after
its end, never satisfies the conflict query's WHERE clause. -/
theorem rowConflict_false_of_separated (r : Row) (classroomId professorId batchId : Nat)
    (cdate : Date) (dow : String) (fullStart fullEnd : Nat)
    (h : dtSecs r.end_date r.end_sec ≤ fullStart ∨ fullEnd ≤ dtSecs r.start_date r.start_sec) :
    rowConflict r classroomId professorId batchId cdate dow fullStart fullEnd = false := by
  unfold rowConflict
  rcases h with h | h
  · have h2 : decide (fullStart < dtSecs r.end_date r.end_sec) = false := by
      simp only [decide_eq_false_iff_not]; omega
    rw [h2]
    simp
  · have h2 : decide (dtSecs r.start_date r.start_sec < fullEnd) = false := by
      simp only [decide_eq_false_iff_not]; omega
    rw [h2]
    simp

/-- C4. Boundary non-conflict: a validated candidate whose full interval
touches but does not cross every existing row — in particular one starting
exactly when an existing row ends — is admitted: the overlap test of the
conflict query is strict on both sides, so no conflict is reported and the
insert commits. -/
theorem bookExtraClass_boundary_admits (env : Env) (store : List Row) (profId : Nat)
    (req : BookRequest) (p : Parsed)
    (hv : validate req env.now env.tz = Except.ok p)
    (hsep : ∀ r ∈ store,
      dtSecs r.end_date r.end_sec ≤ dtSecs p.class_date p.start_time.seconds ∨
      dtSecs p.class_date p.end_time.seconds ≤ dtSecs r.start_date r.start_sec)
    (hfault : env.insertFault = false)
    (hfk : p.course_id ∈ env.courses ∧ profId ∈ env.professors ∧
      p.batch_id ∈ env.batches ∧ p.classroom_id ∈ env.classrooms) :
    (bookExtraClass env store profId req).1 = Outcome.created env.nextId := by
  rw [bookExtraClass_ok_unfold env store profId req p hv]
  have hnone : store.find? (fun r =>
      rowConflict r p.classroom_id profId p.batch_id p.class_date
        (dayOfWeekCode p.class_date env.tz)
        (dtSecs p.class_date p.start_time.seconds)
        (dtSecs p.class_date p.end_time.seconds)) = none := by
    rw [List.find?_eq_none]
    intro r hr
    rw [rowConflict_false_of_separated r p.classroom_id profId p.batch_id p.class_date
      (dayOfWeekCode p.class_date env.tz)
      (dtSecs p.class_date p.start_time.seconds)
      (dtSecs p.class_date p.end_time.seconds) (hsep r hr)]
    simp
  rw [hnone, hfault]
  simp only [Bool.false_eq_true, if_false, if_pos hfk]

theorem bookExtraClass_boundary_admits_witness :
    (bookExtraClass envW4 [rowW4] 6 reqW4).1 = Outcome.created envW4.nextId :=
  bookExtraClass_boundary_admits envW4 [rowW4] 6 reqW4 pW4 rfl (by decide)
    (by decide) (by decide)

/-- C8. Atomicity on every non-success outcome: whenever the handler does
not answer 201 Created, the store is exactly what it was — validation
failures never open the transaction, and the conflict, referential and
unexpected-failure paths all roll back. -/
theorem bookExtraClass_nonSuccess_preserves_store (env : Env) (store : List Row)
    (profId : Nat) (req : BookRequest)
    (h : (bookExtraClass env store profId req).1.isCreated = false) :
    (bookExtraClass env store profId req).2 = store := by
  rcases hv : validate req env.now env.tz with e | p
  · unfold bookExtraClass
    rw [hv]
  · rw [bookExtraClass_ok_unfold env store profId req p hv] at h ⊢
    rcases hfind : store.find? (fun r =>
        rowConflict r p.classroom_id profId p.batch_id p.class_date
          (dayOfWeekCode p.class_date env.tz)
          (dtSecs p.class_date p.start_time.seconds)
          (dtSecs p.class_date p.end_time.seconds)) with _ | r
    · by_cases hfault : env.insertFault = true
      · rw [if_pos hfault]
      · rw [if_neg hfault]
        by_cases hfk : p.course_id ∈ env.courses ∧ profId ∈ env.professors ∧
            p.batch_id ∈ env.batches ∧ p.classroom_id ∈ env.classrooms
        · exfalso
          rw [hfind, if_neg hfault, if_pos hfk] at h
          exact Bool.noConfusion h
        · rw [if_neg hfk]
    · rfl

theorem bookExtraClass_nonSuccess_preserves_store_witness :
    (bookExtraClass envW8 [rowW8] 4 reqW8).2 = [rowW8] :=
  bookExtraClass_nonSuccess_preserves_store envW8 [rowW8] 4 reqW8 (by decide)

/-- C9 counterexample. The degenerate candidate spelled start `"09:30"`,
finish `"09:30:00"` denotes an empty instant interval yet passes validation
(the JavaScript string comparison sees `"09:30" < "09:30:00"`), and because
an empty interval never overlaps anything, resubmitting the identical
candidate is accepted again: both submissions commit, where the claim
demands a 409 on the second. -/
theorem duplicate_submission_both_created :
    (bookExtraClass envC9 [] 2 reqC9).1 = Outcome.created 1 ∧
    (bookExtraClass envC9 (bookExtraClass envC9 [] 2 reqC9).2 2 reqC9).1 =
      Outcome.created 1 := by decide

/-- C9 as amended. For a candidate whose start and end denote distinct
instants, acceptance is not repeatable: resubmitting the identical request
immediately afterwards hits the just-inserted row in the conflict query
(classroom dimension first) and is rejected with 409. -/
theorem bookExtraClass_idempotent_reject (env : Env) (store : List Row) (profId : Nat)
    (req : BookRequest) (p : Parsed)
    (hv : validate req env.now env.tz = Except.ok p)
    (hne : p.start_time.seconds < p.end_time.seconds)
    (h1 : (bookExtraClass env store profId req).1 = Outcome.created env.nextId) :
    (bookExtraClass env (bookExtraClass env store profId req).2 profId req).1 =
      Outcome.conflict "Classroom"
        (newRow env.nextId p profId (dayOfWeekCode p.class_date env.tz)) := by
  rw [bookExtraClass_ok_unfold env store profId req p hv] at h1 ⊢
  rcases hfind : store.find? (fun r =>
      rowConflict r p.classroom_id profId p.batch_id p.class_date
        (dayOfWeekCode p.class_date env.tz)
        (dtSecs p.class_date p.start_time.seconds)
        (dtSecs p.class_date p.end_time.seconds)) with _ | r
  · rw [hfind] at h1
    by_cases hfault : env.insertFault = true
    · rw [if_pos hfault] at h1; exact Outcome.noConfusion h1
    · rw [if_neg hfault] at h1
      by_cases hfk : p.course_id ∈ env.courses ∧ profId ∈ env.professors ∧
          p.batch_id ∈ env.batches ∧ p.classroom_id ∈ env.classrooms
      · rw [if_neg hfault, if_pos hfk]
        show (bookExtraClass env
          (store ++ [newRow env.nextId p profId (dayOfWeekCode p.class_date env.tz)])
          profId req).1 = _
        rw [bookExtraClass_ok_unfold env
          (store ++ [newRow env.nextId p profId (dayOfWeekCode p.class_date env.tz)])
          profId req p hv]
        have hpred : rowConflict
            (newRow env.nextId p profId (dayOfWeekCode p.class_date env.tz))
            p.classroom_id profId p.batch_id p.class_date
            (dayOfWeekCode p.class_date env.tz)
            (dtSecs p.class_date p.start_time.seconds)
            (dtSecs p.class_date p.end_time.seconds) = true := by
          simp only [rowConflict, newRow, sharesDim, dtSecs]
          simp [hne]
        have happ : (store ++
            [newRow env.nextId p profId (dayOfWeekCode p.class_date env.tz)]).find?
              (fun r => rowConflict r p.classroom_id profId p.batch_id p.class_date
                (dayOfWeekCode p.class_date env.tz)
                (dtSecs p.class_date p.start_time.seconds)
                (dtSecs p.class_date p.end_time.seconds)) =
            some (newRow env.nextId p profId (dayOfWeekCode p.class_date env.tz)) := by
          rw [List.find?_append, hfind]
          simp [List.find?_cons_of_pos, hpred]
        rw [happ]
        have hent : conflictEntity
            (newRow env.nextId p profId (dayOfWeekCode p.class_date env.tz))
            p.classroom_id profId p.batch_id = "Classroom" := by
          unfold conflictEntity newRow
          simp
        show Outcome.conflict (conflictEntity
            (newRow env.nextId p profId (dayOfWeekCode p.class_date env.tz))
            p.classroom_id profId p.batch_id)
          (newRow env.nextId p profId (dayOfWeekCode p.class_date env.tz)) = _
        rw [hent]
      · rw [if_neg hfk] at h1; exact Outcome.noConfusion h1
  · rw [hfind] at h1; exact Outcome.noConfusion h1

theorem bookExtraClass_idempotent_reject_witness :
    (bookExtraClass envW9 (bookExtraClass envW9 [] 3 reqW9).2 3 reqW9).1 =
      Outcome.conflict "Classroom"
        (newRow envW9.nextId pW9 3 (dayOfWeekCode pW9.class_date envW9.tz)) :=
  bookExtraClass_idempotent_reject envW9 [] 3 reqW9 pW9 rfl (by decide) (by decide)

/-- C10. Created-row shape: whatever the handler commits is the old store
plus exactly one row, of class type `Extra`, dated on the candidate's date,
with both DATETIMEs on that same date carrying the normalized seconds, and
with `day_of_week` equal to the weekday derived from its own stored
`class_date`. -/
theorem bookExtraClass_created_row_shape (env : Env) (store : List Row) (profId : Nat)
    (req : BookRequest) (p : Parsed)
    (hv : validate req env.now env.tz = Except.ok p)
    (h1 : (bookExtraClass env store profId req).1.isCreated = true) :
    (bookExtraClass env store profId req).2 =
      store ++ [newRow env.nextId p profId (dayOfWeekCode p.class_date env.tz)] ∧
    (newRow env.nextId p profId (dayOfWeekCode p.class_date env.tz)).class_type =
      ClassType.extra ∧
    (newRow env.nextId p profId (dayOfWeekCode p.class_date env.tz)).class_date =
      p.class_date ∧
    (newRow env.nextId p profId (dayOfWeekCode p.class_date env.tz)).start_date =
      p.class_date ∧
    (newRow env.nextId p profId (dayOfWeekCode p.class_date env.tz)).end_date =
      p.class_date ∧
    (newRow env.nextId p profId (dayOfWeekCode p.class_date env.tz)).start_sec =
      p.start_time.seconds ∧
    (newRow env.nextId p profId (dayOfWeekCode p.class_date env.tz)).end_sec =
      p.end_time.seconds ∧
    (newRow env.nextId p profId (dayOfWeekCode p.class_date env.tz)).day_of_week =
      weekdayName (jsWeekday
        (newRow env.nextId p profId (dayOfWeekCode p.class_date env.tz)).class_date) := by
  refine ⟨?_, rfl, rfl, rfl, rfl, rfl, rfl, rfl⟩
  rw [bookExtraClass_ok_unfold env store profId req p hv] at h1 ⊢
  rcases hfind : store.find? (fun r =>
      rowConflict r p.classroom_id profId p.batch_id p.class_date
        (dayOfWeekCode p.class_date env.tz)
        (dtSecs p.class_date p.start_time.seconds)
        (dtSecs p.class_date p.end_time.seconds)) with _ | r
  · rw [hfind] at h1
    by_cases hfault : env.insertFault = true
    · rw [if_pos hfault] at h1; exact Bool.noConfusion h1
    · rw [if_neg hfault] at h1
      by_cases hfk : p.course_id ∈ env.courses ∧ profId ∈ env.professors ∧
          p.batch_id ∈ env.batches ∧ p.classroom_id ∈ env.classrooms
      · rw [if_neg hfault, if_pos hfk]
      · rw [if_neg hfk] at h1; exact Bool.noConfusion h1
  · rw [hfind] at h1; exact Bool.noConfusion h1

theorem bookExtraClass_created_row_shape_witness :
    (bookExtraClass envW10 [] 5 reqW10).2 =
      [] ++ [newRow envW10.nextId pW10 5 (dayOfWeekCode pW10.class_date envW10.tz)] ∧
    (newRow envW10.nextId pW10 5 (dayOfWeekCode pW10.class_date envW10.tz)).day_of_week =
      weekdayName (jsWeekday
        (newRow envW10.nextId pW10 5 (dayOfWeekCode pW10.class_date envW10.tz)).class_date) :=
  ⟨(bookExtraClass_created_row_shape envW10 [] 5 reqW10 pW10 rfl (by decide)).1,
   (bookExtraClass_created_row_shape envW10 [] 5 reqW10 pW10 rfl (by decide)).2.2.2.2.2.2.2⟩

/-- C6. Conflict-dimension reporting priority: the `CASE WHEN` answer is
determined by the fixed order classroom, professor, batch — a classroom
match wins regardless of the other dimensions, a professor match is reported
only without a classroom match, a batch match only without either. -/
theorem conflictEntity_priority (r : Row) (classroomId professorId batchId : Nat) :
    (r.classroom_id = classroomId →
      conflictEntity r classroomId professorId batchId = "Classroom") ∧
    (r.classroom_id ≠ classroomId → r.professor_id = professorId →
      conflictEntity r classroomId professorId batchId = "Professor") ∧
    (r.classroom_id ≠ classroomId → r.professor_id ≠ professorId → r.batch_id = batchId →
      conflictEntity r classroomId professorId batchId = "Batch") := by
  unfold conflictEntity
  refine ⟨fun h => ?_, fun h1 h2 => ?_, fun h1 h2 h3 => ?_⟩ <;> simp [*]

theorem conflictEntity_priority_witness :
    rowW6.professor_id = 2 ∧ rowW6.batch_id = 3 ∧
      conflictEntity rowW6 1 2 3 = "Classroom" :=
  ⟨rfl, rfl, (conflictEntity_priority rowW6 1 2 3).1 rfl⟩

/-- C1 (bug evaluation). The seeded store satisfies the no-overlap
invariant, the handler nevertheless commits the candidate — the conflict
query compares full DATETIMEs, and a Base row stored under an earlier date
always fails `s.end_time > fullStartTime` — and the committed store
violates the invariant: the new Extra and the Base row share the professor,
fall on the same Wednesday axis, and their 11:30–12:30 and 11:00–12:00
wall-clock intervals overlap. -/
theorem extraBooking_admitted_despite_base_overlap :
    NoOverlap [baseRowC1] ∧
    (bookExtraClass envC1 [baseRowC1] 7 reqC1).1 = Outcome.created 2 ∧
    ¬ NoOverlap (bookExtraClass envC1 [baseRowC1] 7 reqC1).2 := by decide

/-- C3 (bug evaluation). The Base row's day of week equals the weekday
computed from the candidate's date, the classroom is shared and the
time-of-day intervals overlap, yet the conflict query's WHERE clause is
false for the row — its DATETIME interval lies entirely before the
candidate's — so the handler reports no conflict and commits: the Base
overlap test is not a wall-clock time-of-day test but depends on the
calendar date under which the Base row's times are stored. -/
theorem baseConflict_missed_for_stale_stored_date :
    baseRowC3.class_type = ClassType.base ∧
    baseRowC3.day_of_week = dayOfWeekCode ⟨2024, 4, 3⟩ envC3.tz ∧
    baseRowC3.classroom_id = 40 ∧
    baseRowC3.start_sec < 10 * 3600 + 1800 ∧ 9 * 3600 + 1800 < baseRowC3.end_sec ∧
    rowConflict baseRowC3 40 9 23 ⟨2024, 4, 3⟩ (dayOfWeekCode ⟨2024, 4, 3⟩ envC3.tz)
      (dtSecs ⟨2024, 4, 3⟩ (9 * 3600 + 1800)) (dtSecs ⟨2024, 4, 3⟩ (10 * 3600 + 1800)) =
      false ∧
    (bookExtraClass envC3 [baseRowC3] 9 reqC3).1 = Outcome.created 2 := by decide

/-- C5 (bug evaluation). Two failures of the validation contract: (1) a
candidate whose start and end are the same wall-clock instant — spelled
`"09:30"` and `"09:30:00"` — passes the `start_time >= end_time` check,
because that check is a JavaScript string comparison under which
`"09:30" < "09:30:00"`, and the request is committed instead of rejected
with 400; (2) on a server west of UTC (offset −480 minutes), a candidate
dated the server's current calendar day is rejected as a past date, because
the code compares the UTC midnight of the candidate date against the
server's local midnight. -/
theorem validation_admits_equal_instants_and_rejects_today :
    validate reqC5 envC5.now envC5.tz = Except.ok pC5 ∧
    pC5.start_time.seconds = pC5.end_time.seconds ∧
    (bookExtraClass envC5 [] 9 reqC5).1 = Outcome.created 1 ∧
    validate reqC5 (19788 * 1440 + 1200) (-480) =
      Except.error ValidationError.pastDate ∧
    Int.fdiv (Int.ofNat (19788 * 1440 + 1200) + (-480)) 1440 =
      Int.ofNat (epochDay ⟨2024, 3, 6⟩) := by
  exact ⟨rfl, rfl, by decide, rfl, by decide⟩

end NoClash

